import Mathlib

/-!
Verification of the ryde User CRUD service.

This file is a shallow embedding of the Go source (gin HTTP handlers in
`UserController`, the mongo-backed `userService`, and the `User` entity).
The document store (mongo) is an external collaborator: its outcome for
each operation (find / insert / update / delete) is passed to the service
model as an explicit parameter.  JSON and BSON marshalling of the `User`
struct (all fields pointer-typed with `omitempty`) is modelled as a list
of present members.  Gin's `AbortWithError` attaches the error to the
context rather than writing it to the body; the model records it in a
separate `errMsg` field of the response.
-/

namespace Ryde

/-- Valid hexadecimal digit, as accepted by `encoding/hex` decoding used
by the mongo driver's `primitive.ObjectIDFromHex`. -/
def isHexDigit (c : Char) : Bool :=
  c.isDigit || (('a' ≤ c) && (c ≤ 'f')) || (('A' ≤ c) && (c ≤ 'F'))

/-- Numeric value of a hexadecimal digit character. -/
def hexCharVal (c : Char) : Nat :=
  if c.isDigit then c.toNat - 48
  else if ('a' ≤ c) && (c ≤ 'f') then c.toNat - 87
  else c.toNat - 55

/-- Decode a list of hex characters two at a time into bytes, modelling
`encoding/hex.Decode` (a trailing odd character cannot occur on the
24-character inputs accepted by `ObjectIDFromHex`). -/
def decodePairs : List Char → List Nat
  | c1 :: c2 :: rest => (hexCharVal c1 * 16 + hexCharVal c2) :: decodePairs rest
  | [c] => [hexCharVal c]
  | [] => []

/-- A mongo ObjectID: `primitive.ObjectID` is `[12]byte`. -/
abbrev ObjectID := { l : List Nat // l.length = 12 }

/-- Lowercase hexadecimal digit character for a nibble. -/
def hexDigitChar (n : Nat) : Char :=
  if n < 10 then Char.ofNat (n + 48) else Char.ofNat (n + 87)

/-- The two lowercase hex characters of one byte. -/
def byteHex (b : Nat) : List Char := [hexDigitChar (b / 16 % 16), hexDigitChar (b % 16)]

/-- Hex string of an ObjectID, modelling `primitive.ObjectID.Hex`:
24 lowercase hexadecimal characters. -/
def ObjectID.hex (o : ObjectID) : String :=
  String.mk (o.val.foldr (fun b acc => byteHex b ++ acc) [])

/-- Error message of `primitive.ErrInvalidHex` in the mongo driver. -/
def ErrInvalidHexMsg : String := "the provided hex string is not a valid ObjectID"

/-- Model of `primitive.ObjectIDFromHex`: succeeds exactly on 24-character
hexadecimal strings.  The final conjunct of the guard is implied by the
first (see `decodePairs_length`) and is present only to carry the length
proof of the subtype. -/
def ObjectIDFromHex (s : String) : Option ObjectID :=
  if h : s.length = 24 ∧ s.data.all isHexDigit ∧ (decodePairs s.data).length = 12 then
    some ⟨decodePairs s.data, h.2.2⟩
  else none

/-- The User entity (`user.go`): every field is a nilable pointer with
`omitempty` JSON/BSON tags, so each field is independently present or
absent. -/
structure User where
  ID          : Option ObjectID
  Name        : Option String
  Dob         : Option String
  Address     : Option String
  Description : Option String
  CreatedAt   : Option String
deriving DecidableEq

/-- JSON values appearing in this service's wire format: the `User` struct
marshals every present field (the ObjectID included, via its hex string)
as a JSON string, and a nil `*User` marshals as the literal `null`. -/
inductive Json where
  | str (s : String)
  | null
deriving DecidableEq

/-- Members (key, value) of the JSON object `encoding/json.Marshal`
produces for a `User`: struct-field order, each nil pointer omitted
(`omitempty`), the ObjectID rendered as its hex string. -/
def encodeUser (u : User) : List (String × Json) :=
  (match u.ID with | some o => [("id", Json.str o.hex)] | none => []) ++
  (match u.Name with | some s => [("name", Json.str s)] | none => []) ++
  (match u.Dob with | some s => [("dob", Json.str s)] | none => []) ++
  (match u.Address with | some s => [("address", Json.str s)] | none => []) ++
  (match u.Description with | some s => [("description", Json.str s)] | none => []) ++
  (match u.CreatedAt with | some s => [("createdAt", Json.str s)] | none => [])

/-- The User with every field absent: the zero value `json.Unmarshal`
starts from. -/
def User.empty : User :=
  { ID := none, Name := none, Dob := none, Address := none,
    Description := none, CreatedAt := none }

/-- Process one JSON object member during `json.Unmarshal` into a `User`:
a string value sets the matching pointer field, an explicit `null` sets
the pointer to nil, unknown keys are ignored, and a malformed hex string
for `id` is a decode error. -/
def setMember (u : User) (m : String × Json) : Option User :=
  match m with
  | ("id", Json.str s) =>
      match ObjectIDFromHex s with
      | some o => some { u with ID := some o }
      | none => none
  | ("id", Json.null) => some { u with ID := none }
  | ("name", Json.str s) => some { u with Name := some s }
  | ("name", Json.null) => some { u with Name := none }
  | ("dob", Json.str s) => some { u with Dob := some s }
  | ("dob", Json.null) => some { u with Dob := none }
  | ("address", Json.str s) => some { u with Address := some s }
  | ("address", Json.null) => some { u with Address := none }
  | ("description", Json.str s) => some { u with Description := some s }
  | ("description", Json.null) => some { u with Description := none }
  | ("createdAt", Json.str s) => some { u with CreatedAt := some s }
  | ("createdAt", Json.null) => some { u with CreatedAt := none }
  | _ => some u

/-- Model of `json.Unmarshal` of a JSON object into a `User`: fold the
members over the zero value. -/
def decodeUser (ms : List (String × Json)) : Option User :=
  ms.foldlM setMember User.empty

/-- Render one JSON value. -/
def Json.render : Json → String
  | Json.str s => "\"" ++ s ++ "\""
  | Json.null => "null"

/-- Render one JSON object member. -/
def renderMember (m : String × Json) : String :=
  "\"" ++ m.1 ++ "\":" ++ m.2.render

/-- Render a JSON object from its member list. -/
def renderObj (ms : List (String × Json)) : String :=
  "\x7b" ++ String.intercalate "," (ms.map renderMember) ++ "\x7d"

/-- Body gin's `c.JSON` writes for a `*User` value: a nil pointer marshals
as the JSON literal `null`, otherwise the marshalled object. -/
def renderUserPtr : Option User → String
  | none => "null"
  | some u => renderObj (encodeUser u)

/-- Lookup of a member by key in a marshalled document. -/
def memberLookup {α : Type} (k : String) : List (String × α) → Option α
  | [] => none
  | m :: rest => if m.1 = k then some m.2 else memberLookup k rest

/-- BSON values appearing in this service's documents: strings for the
text fields, native ObjectIDs for `_id`. -/
inductive BsonValue where
  | str (s : String)
  | oid (o : ObjectID)
deriving DecidableEq

/-- Members of the BSON document the driver marshals a `User` into:
BSON tag names, each nil pointer omitted (`omitempty`). -/
def bsonEncodeUser (u : User) : List (String × BsonValue) :=
  (match u.ID with | some o => [("_id", BsonValue.oid o)] | none => []) ++
  (match u.Name with | some s => [("name", BsonValue.str s)] | none => []) ++
  (match u.Dob with | some s => [("dob", BsonValue.str s)] | none => []) ++
  (match u.Address with | some s => [("address", BsonValue.str s)] | none => []) ++
  (match u.Description with | some s => [("description", BsonValue.str s)] | none => []) ++
  (match u.CreatedAt with | some s => [("createdAt", BsonValue.str s)] | none => [])

/-- Errors `userService` returns to the controller.  The controller only
ever distinguishes `mongo.ErrNoDocuments` (via `errors.Is`); every other
error, wrapped parse failures included, is `other` with its message. -/
inductive ServiceErr where
  | noDocuments
  | other (msg : String)
deriving DecidableEq

/-- Outcome of the store's `FindOne(...).Decode(&user)` round trip for a
given `_id`: a decoded document, `mongo.ErrNoDocuments`, or another
driver failure. -/
inductive FindOutcome where
  | found (u : User)
  | noDocuments
  | failure (msg : String)
deriving DecidableEq

/-- The id value `InsertOne` reports: the store's native ObjectID in
normal operation, or (defensively, per the type assertion in the code)
some other type. -/
inductive InsertedID where
  | oid (o : ObjectID)
  | other
deriving DecidableEq

/-- Outcome of the store's `InsertOne` call. -/
inductive InsertOutcome where
  | ok (insertedID : InsertedID)
  | failure (msg : String)
deriving DecidableEq

/-- Outcome of the store's `UpdateByID` call: the matched-document count
on success, or a driver failure. -/
inductive UpdateOutcome where
  | ok (matchedCount : Nat)
  | failure (msg : String)
deriving DecidableEq

/-- Outcome of the store's `DeleteOne` call: the deleted-document count
on success (ignored by the code), or a driver failure. -/
inductive DeleteOutcome where
  | ok (deletedCount : Nat)
  | failure (msg : String)
deriving DecidableEq

namespace userService

/-- Model of `userService.get`: parse the id (wrapping a parse failure as
`invalid user ID: ...`), query the store, pass `mongo.ErrNoDocuments`
through unwrapped, wrap any other failure as `failed to find User: ...`. -/
def get (find : ObjectID → FindOutcome) (id : String) : Except ServiceErr User :=
  match ObjectIDFromHex id with
  | none => Except.error (ServiceErr.other ("invalid user ID: " ++ ErrInvalidHexMsg))
  | some oid =>
      match find oid with
      | FindOutcome.found u => Except.ok u
      | FindOutcome.noDocuments => Except.error ServiceErr.noDocuments
      | FindOutcome.failure m => Except.error (ServiceErr.other ("failed to find User: " ++ m))

/-- Result of `userService.create`: the document passed to `InsertOne`
(after stamping `CreatedAt`) and the error-or-mutated-user outcome. -/
structure CreateResult where
  insertedDoc : User
  result : Except String User

/-- Model of `userService.create`: stamp `CreatedAt` with the formatted
current time (`now` stands for `time.Now().UTC().Format(time.RFC3339)`),
insert, propagate an insert failure unwrapped, and set the entity's `ID`
only when the reported inserted id is an ObjectID. -/
def create (now : String) (outcome : InsertOutcome) (user : User) : CreateResult :=
  let stamped := { user with CreatedAt := some now }
  { insertedDoc := stamped,
    result :=
      match outcome with
      | InsertOutcome.failure m => Except.error m
      | InsertOutcome.ok (InsertedID.oid o) => Except.ok { stamped with ID := some o }
      | InsertOutcome.ok InsertedID.other => Except.ok stamped }

/-- The field-level document placed under `$set` by `UpdateByID` in
`userService.update`: the BSON marshalling of the submitted user. -/
def updateSetDoc (user : User) : List (String × BsonValue) :=
  bsonEncodeUser user

/-- Model of `userService.update`: parse the id (wrapping failure as
`failed to parse user ID: ...`), issue the update, wrap a store failure
as `failed to modify user with id <id>: ...`, return `none` without error
when fewer than one document matched, and otherwise return the submitted
user as-is. -/
def update (outcome : UpdateOutcome) (id : String) (user : User) :
    Except String (Option User) :=
  match ObjectIDFromHex id with
  | none => Except.error ("failed to parse user ID: " ++ ErrInvalidHexMsg)
  | some _ =>
      match outcome with
      | UpdateOutcome.failure m =>
          Except.error ("failed to modify user with id " ++ id ++ ": " ++ m)
      | UpdateOutcome.ok n => if n < 1 then Except.ok none else Except.ok (some user)

/-- Model of `userService.delete`: parse the id (failure is the bare
message `invalid user ID`), issue the delete, wrap a store failure as
`failed to delete user with id <id>: ...`, and ignore the deleted count.
Returns the error, if any (`none` is success). -/
def delete (outcome : DeleteOutcome) (id : String) : Option String :=
  match ObjectIDFromHex id with
  | none => some "invalid user ID"
  | some _ =>
      match outcome with
      | DeleteOutcome.failure m =>
          some ("failed to delete user with id " ++ id ++ ": " ++ m)
      | DeleteOutcome.ok _ => none

end userService

/-- Observable outcome of one handler invocation: the HTTP status, the
body written, and the error gin's `AbortWithError` attached to the
context (`none` when no error was attached). -/
structure HttpResponse where
  status : Nat
  body : String
  errMsg : Option String
deriving DecidableEq

/-- Payload of `POST /users` after `ShouldBindJSON` with
`binding:"required"` on name, dob and address: those three are present,
description remains optional. -/
structure CreatePayload where
  name : String
  dob : String
  address : String
  description : Option String
deriving DecidableEq

/-- The `User` the create handler builds from its payload: ID and
CreatedAt left nil. -/
def userFromCreatePayload (p : CreatePayload) : User :=
  { ID := none, Name := some p.name, Dob := some p.dob,
    Address := some p.address, Description := p.description, CreatedAt := none }

/-- Payload of `PUT /users/{id}` after `ShouldBindJSON`: every field
optional. -/
structure UpdatePayload where
  name : Option String
  dob : Option String
  address : Option String
  description : Option String
deriving DecidableEq

/-- The `User` the update handler builds from its payload: ID and
CreatedAt left nil. -/
def userFromUpdatePayload (p : UpdatePayload) : User :=
  { ID := none, Name := p.name, Dob := p.dob,
    Address := p.address, Description := p.description, CreatedAt := none }

namespace UserController

/-- Model of `UserController.GetUser`: a `mongo.ErrNoDocuments` result
aborts with 204 and no body; otherwise `c.JSON(http.StatusOK, user)` runs
with the returned `*User`, which is nil on every other error (so the body
is the JSON literal `null`). -/
def GetUser (find : ObjectID → FindOutcome) (id : String) : HttpResponse :=
  match userService.get find id with
  | Except.error ServiceErr.noDocuments =>
      { status := 204, body := "", errMsg := none }
  | Except.error (ServiceErr.other _) =>
      { status := 200, body := renderUserPtr none, errMsg := none }
  | Except.ok u =>
      { status := 200, body := renderUserPtr (some u), errMsg := none }

/-- Model of `UserController.CreateUser` after a successful bind: build
the user from the payload, call `create`; a service failure aborts with
500 and the error attached; success answers 201 with the JSON-encoded
mutated user. -/
def CreateUser (now : String) (outcome : InsertOutcome) (p : CreatePayload) :
    HttpResponse :=
  match (userService.create now outcome (userFromCreatePayload p)).result with
  | Except.error m => { status := 500, body := "", errMsg := some m }
  | Except.ok u => { status := 201, body := renderUserPtr (some u), errMsg := none }

/-- Model of `UserController.UpdateUser` after a successful bind: build
the user from the payload, call `update`; a service error aborts with
500; a nil result with no error aborts with 400, attaching a message
naming the id; success answers 202 with the JSON-encoded returned user. -/
def UpdateUser (outcome : UpdateOutcome) (id : String) (p : UpdatePayload) :
    HttpResponse :=
  match userService.update outcome id (userFromUpdatePayload p) with
  | Except.error m => { status := 500, body := "", errMsg := some m }
  | Except.ok none =>
      { status := 400, body := "",
        errMsg := some ("user with id `" ++ id ++ "` not found") }
  | Except.ok (some u) =>
      { status := 202, body := renderUserPtr (some u), errMsg := none }

/-- Model of `UserController.DeleteUser`: a service error aborts with 500
and the error attached; otherwise 200 with empty body. -/
def DeleteUser (outcome : DeleteOutcome) (id : String) : HttpResponse :=
  match userService.delete outcome id with
  | some m => { status := 500, body := "", errMsg := some m }
  | none => { status := 200, body := "", errMsg := none }

end UserController

/-- One field assignment of the store's `$set` operator (the store is an
external collaborator; this models the spec's glossary for field-level
set: modify exactly the named field, leaving every other member of the
stored document untouched, inserting the member when absent). -/
def setField (doc : List (String × BsonValue)) (k : String) (v : BsonValue) :
    List (String × BsonValue) :=
  if doc.any (fun m => m.1 == k) then
    doc.map (fun m => if m.1 = k then (k, v) else m)
  else doc ++ [(k, v)]

/-- Application of a whole `$set` document to a stored document, member by
member. -/
def applySet (sd doc : List (String × BsonValue)) : List (String × BsonValue) :=
  sd.foldl (fun d m => setField d m.1 m.2) doc

/-- The `User` value `create` hands back on the store's normal success
path: the payload fields plus the server-assigned id and creation stamp. -/
def createdUser (p : CreatePayload) (o : ObjectID) (now : String) : User :=
  { ID := some o, Name := some p.name, Dob := some p.dob,
    Address := some p.address, Description := p.description,
    CreatedAt := some now }

/-- A concrete well-formed 24-character hex id for witnesses. -/
def sampleHexId : String := "0123456789abcdef01234567"

/-- The ObjectID `sampleHexId` decodes to. -/
def sampleOid : ObjectID :=
  ⟨[1, 35, 69, 103, 137, 171, 205, 239, 1, 35, 69, 103], by decide⟩

/-- The create payload used by the repository's own controller test. -/
def samplePayload : CreatePayload :=
  { name := "John Doe", dob := "1/2/3", address := "1 Singapore Road",
    description := some "test create" }

/-- The update payload used by the repository's own controller test. -/
def sampleUpdatePayload : UpdatePayload :=
  { name := some "John Doe", dob := some "1/1/2022",
    address := some "1 Singapore Road", description := some "test update user" }

/-- Decoding `n` hex characters yields `(n + 1) / 2` bytes, so the final
guard conjunct in `ObjectIDFromHex` is implied by `s.length = 24`. -/
theorem decodePairs_length (l : List Char) :
    (decodePairs l).length = (l.length + 1) / 2 := by
  induction l using decodePairs.induct with
  | case1 c1 c2 rest ih => simp [decodePairs, ih]; omega
  | case2 c => simp [decodePairs]
  | case3 => simp [decodePairs]

/-- The hex string of an ObjectID is never empty (it always has 24
characters, two per byte of the 12-byte id). -/
theorem ObjectID.hex_ne_empty (o : ObjectID) : o.hex ≠ "" := by
  obtain ⟨l, hl⟩ := o
  cases l with
  | nil => simp at hl
  | cons b t =>
      intro h
      have hd : hexDigitChar (b / 16 % 16) ::
          (hexDigitChar (b % 16) ::
            (t.foldr (fun x acc => byteHex x ++ acc) [])) = ([] : List Char) :=
        congrArg String.data h
      exact List.cons_ne_nil _ _ hd

/-- C1: a GET whose service call reports `mongo.ErrNoDocuments` (the
store resolved the id to no document) responds 204 No Content with an
empty body and no attached error. -/
theorem getUser_notFound_responds204 (find : ObjectID → FindOutcome) (id : String)
    (h : userService.get find id = Except.error ServiceErr.noDocuments) :
    UserController.GetUser find id = { status := 204, body := "", errMsg := none } := by
  unfold UserController.GetUser
  rw [h]

/-- Witness for C1: a well-formed id that the store resolves to no
document yields exactly the 204 empty response. -/
theorem getUser_notFound_responds204_witness :
    UserController.GetUser (fun _ => FindOutcome.noDocuments) sampleHexId =
      { status := 204, body := "", errMsg := none } :=
  getUser_notFound_responds204 (fun _ => FindOutcome.noDocuments) sampleHexId (by rfl)

/-- C2 counterexample: on a non-NotFound service error the GET handler
does answer status 200 with no error status, but the body is the
four-character JSON literal `null` (gin's `c.JSON` marshalling of the nil
`*User`), not the empty string the claim states. -/
theorem getUser_otherError_counterexample :
    userService.get (fun _ => FindOutcome.failure "network error") sampleHexId =
      Except.error (ServiceErr.other "failed to find User: network error") ∧
    UserController.GetUser (fun _ => FindOutcome.failure "network error") sampleHexId =
      { status := 200, body := "null", errMsg := none } ∧
    ("null" : String) ≠ "" :=
  ⟨by rfl, by rfl, by decide⟩

/-- C2 (amended): on every non-NotFound service error the GET handler
responds 200 with no error status and no User JSON; its body is the JSON
literal `null`, the marshalling of the absent user. -/
theorem getUser_otherError_responds200null (find : ObjectID → FindOutcome)
    (id : String) (m : String)
    (h : userService.get find id = Except.error (ServiceErr.other m)) :
    UserController.GetUser find id =
      { status := 200, body := "null", errMsg := none } := by
  unfold UserController.GetUser
  rw [h]
  rfl

/-- Witness for the amended C2 at a concrete store failure. -/
theorem getUser_otherError_responds200null_witness :
    UserController.GetUser (fun _ => FindOutcome.failure "network error") sampleHexId =
      { status := 200, body := "null", errMsg := none } :=
  getUser_otherError_responds200null (fun _ => FindOutcome.failure "network error")
    sampleHexId "failed to find User: network error" (by rfl)

/-- C3: when the id parses but the store matches zero documents, the
service returns `none` with no error, and the PUT handler maps that to a
400 response with an attached message naming the id. -/
theorem update_zeroMatched_maps400 (id : String) (oid : ObjectID) (p : UpdatePayload)
    (h : ObjectIDFromHex id = some oid) :
    userService.update (UpdateOutcome.ok 0) id (userFromUpdatePayload p) =
      Except.ok none ∧
    UserController.UpdateUser (UpdateOutcome.ok 0) id p =
      { status := 400, body := "",
        errMsg := some ("user with id `" ++ id ++ "` not found") } := by
  have hs : userService.update (UpdateOutcome.ok 0) id (userFromUpdatePayload p) =
      Except.ok none := by
    unfold userService.update
    rw [h]
    rfl
  refine ⟨hs, ?_⟩
  unfold UserController.UpdateUser
  rw [hs]

/-- Witness for C3 at the repository test's own payload and a concrete
well-formed id. -/
theorem update_zeroMatched_maps400_witness :
    userService.update (UpdateOutcome.ok 0) sampleHexId
        (userFromUpdatePayload sampleUpdatePayload) = Except.ok none ∧
    UserController.UpdateUser (UpdateOutcome.ok 0) sampleHexId sampleUpdatePayload =
      { status := 400, body := "",
        errMsg := some ("user with id `" ++ sampleHexId ++ "` not found") } :=
  update_zeroMatched_maps400 sampleHexId sampleOid sampleUpdatePayload (by rfl)

/-- C4: when the body decodes and the store matches the id, the service
returns the submitted partial user unchanged (no re-fetch of the merged
document) and the handler responds 202 whose body is exactly the JSON
encoding of the submitted present fields. -/
theorem update_matched_echoes202 (id : String) (oid : ObjectID) (p : UpdatePayload)
    (n : Nat) (hp : ObjectIDFromHex id = some oid) (hn : 1 ≤ n) :
    userService.update (UpdateOutcome.ok n) id (userFromUpdatePayload p) =
      Except.ok (some (userFromUpdatePayload p)) ∧
    UserController.UpdateUser (UpdateOutcome.ok n) id p =
      { status := 202, body := renderObj (encodeUser (userFromUpdatePayload p)),
        errMsg := none } := by
  have hs : userService.update (UpdateOutcome.ok n) id (userFromUpdatePayload p) =
      Except.ok (some (userFromUpdatePayload p)) := by
    unfold userService.update
    rw [hp]
    simp only []
    rw [if_neg (by omega)]
  refine ⟨hs, ?_⟩
  unfold UserController.UpdateUser
  rw [hs]
  rfl

/-- Witness for C4 at the repository test's own payload, a concrete
well-formed id and matched count 1. -/
theorem update_matched_echoes202_witness :
    userService.update (UpdateOutcome.ok 1) sampleHexId
        (userFromUpdatePayload sampleUpdatePayload) =
      Except.ok (some (userFromUpdatePayload sampleUpdatePayload)) ∧
    UserController.UpdateUser (UpdateOutcome.ok 1) sampleHexId sampleUpdatePayload =
      { status := 202,
        body := renderObj (encodeUser (userFromUpdatePayload sampleUpdatePayload)),
        errMsg := none } :=
  update_matched_echoes202 sampleHexId sampleOid sampleUpdatePayload 1 (by rfl) (by decide)

/-- C5: `create` stamps the document's `CreatedAt` with the formatted
current time before handing it to `InsertOne`, and the stamp overwrites
any caller-supplied value: the inserted document is exactly the caller's
user with `CreatedAt` replaced, whatever it previously held. -/
theorem create_stamps_createdAt (now : String) (outcome : InsertOutcome) (user : User) :
    (userService.create now outcome user).insertedDoc =
      { user with CreatedAt := some now } ∧
    (userService.create now outcome user).insertedDoc.CreatedAt = some now :=
  ⟨rfl, rfl⟩

/-- C6: a POST whose payload bound (required fields present) and whose
insert succeeded with the store's native ObjectID responds 201; the body
is the JSON encoding of the created user, which carries the four
submitted fields verbatim together with a populated, non-empty id (the
24-character hex of the store-assigned ObjectID) and a populated,
non-empty createdAt (the server stamp, never empty for a formatted
time). -/
theorem createUser_success_responds201 (p : CreatePayload) (o : ObjectID)
    (now : String) (hnow : now ≠ "") :
    (UserController.CreateUser now (InsertOutcome.ok (InsertedID.oid o)) p).status = 201 ∧
    (UserController.CreateUser now (InsertOutcome.ok (InsertedID.oid o)) p).body =
      renderObj (encodeUser (createdUser p o now)) ∧
    memberLookup "name" (encodeUser (createdUser p o now)) = some (Json.str p.name) ∧
    memberLookup "dob" (encodeUser (createdUser p o now)) = some (Json.str p.dob) ∧
    memberLookup "address" (encodeUser (createdUser p o now)) = some (Json.str p.address) ∧
    memberLookup "description" (encodeUser (createdUser p o now)) =
      p.description.map Json.str ∧
    memberLookup "id" (encodeUser (createdUser p o now)) = some (Json.str o.hex) ∧
    o.hex ≠ "" ∧
    memberLookup "createdAt" (encodeUser (createdUser p o now)) = some (Json.str now) ∧
    now ≠ "" := by
  obtain ⟨nm, db, ad, ds⟩ := p
  cases ds with
  | none =>
      exact ⟨rfl, rfl, rfl, rfl, rfl, rfl, rfl, ObjectID.hex_ne_empty o, rfl, hnow⟩
  | some d =>
      exact ⟨rfl, rfl, rfl, rfl, rfl, rfl, rfl, ObjectID.hex_ne_empty o, rfl, hnow⟩

/-- Witness for C6 at the repository test's own payload, a concrete
ObjectID and a concrete timestamp. -/
theorem createUser_success_responds201_witness :
    (UserController.CreateUser "2024-01-01T00:00:00Z"
        (InsertOutcome.ok (InsertedID.oid sampleOid)) samplePayload).status = 201 ∧
    memberLookup "id" (encodeUser (createdUser samplePayload sampleOid
        "2024-01-01T00:00:00Z")) = some (Json.str sampleOid.hex) :=
  ⟨(createUser_success_responds201 samplePayload sampleOid
      "2024-01-01T00:00:00Z" (by decide)).1,
   (createUser_success_responds201 samplePayload sampleOid
      "2024-01-01T00:00:00Z" (by decide)).2.2.2.2.2.2.1⟩

/-- C7 counterexample: a DELETE with the malformed id `zz` responds 500
although the store reported no operational failure at all (the outcome
was a successful delete of one document), refuting the claim that only an
operational store failure departs from 200. -/
theorem deleteUser_invalidId_counterexample :
    UserController.DeleteUser (DeleteOutcome.ok 1) "zz" =
      { status := 500, body := "", errMsg := some "invalid user ID" } ∧
    (500 : Nat) ≠ 200 :=
  ⟨rfl, by decide⟩

/-- C7 (amended): a DELETE whose id parses responds 200 with empty body
whatever the deleted count (a delete matching zero documents included),
responds 500 when the store reports an operational failure, and responds
500 with the attached message `invalid user ID` when the id is
malformed. -/
theorem deleteUser_statuses (id : String) :
    (∀ (oid : ObjectID) (n : Nat), ObjectIDFromHex id = some oid →
        UserController.DeleteUser (DeleteOutcome.ok n) id =
          { status := 200, body := "", errMsg := none }) ∧
    (∀ (oid : ObjectID) (m : String), ObjectIDFromHex id = some oid →
        UserController.DeleteUser (DeleteOutcome.failure m) id =
          { status := 500, body := "",
            errMsg := some ("failed to delete user with id " ++ id ++ ": " ++ m) }) ∧
    (∀ outcome : DeleteOutcome, ObjectIDFromHex id = none →
        UserController.DeleteUser outcome id =
          { status := 500, body := "", errMsg := some "invalid user ID" }) := by
  refine ⟨?_, ?_, ?_⟩
  · intro oid n hp
    unfold UserController.DeleteUser userService.delete
    rw [hp]
  · intro oid m hp
    unfold UserController.DeleteUser userService.delete
    rw [hp]
  · intro outcome hp
    unfold UserController.DeleteUser userService.delete
    rw [hp]

/-- Witness for the amended C7: all three branches at concrete inputs,
the zero-matched delete included. -/
theorem deleteUser_statuses_witness :
    UserController.DeleteUser (DeleteOutcome.ok 0) sampleHexId =
      { status := 200, body := "", errMsg := none } ∧
    UserController.DeleteUser (DeleteOutcome.failure "io error") sampleHexId =
      { status := 500, body := "",
        errMsg := some ("failed to delete user with id " ++ sampleHexId ++ ": " ++ "io error") } ∧
    UserController.DeleteUser (DeleteOutcome.ok 3) "zz" =
      { status := 500, body := "", errMsg := some "invalid user ID" } :=
  ⟨(deleteUser_statuses sampleHexId).1 sampleOid 0 (by rfl),
   (deleteUser_statuses sampleHexId).2.1 sampleOid "io error" (by rfl),
   (deleteUser_statuses "zz").2.2 (DeleteOutcome.ok 3) (by rfl)⟩

/-- C8: marshalling a User holding only name and dob emits exactly those
two keys (absent fields are omitted, not emitted as null), and
unmarshalling the result restores the same value, the other four fields
absent. -/
theorem user_json_roundtrip_nameDob (n d : String) :
    (encodeUser { User.empty with Name := some n, Dob := some d }).map Prod.fst =
      ["name", "dob"] ∧
    decodeUser (encodeUser { User.empty with Name := some n, Dob := some d }) =
      some { User.empty with Name := some n, Dob := some d } :=
  ⟨rfl, rfl⟩

/-- Replacing the value at key `k2` throughout a document leaves lookups
of any other key unchanged. -/
theorem memberLookup_map_set_ne (doc : List (String × BsonValue)) (k k2 : String)
    (v : BsonValue) (h : k ≠ k2) :
    memberLookup k (doc.map (fun m => if m.1 = k2 then (k2, v) else m)) =
      memberLookup k doc := by
  induction doc with
  | nil => rfl
  | cons m rest ih =>
      by_cases hm : m.1 = k2
      · simp [memberLookup, hm, Ne.symm h, ih]
      · simp [memberLookup, hm, ih]

/-- Appending a member with key `k2` leaves lookups of any other key
unchanged. -/
theorem memberLookup_append_ne (doc : List (String × BsonValue)) (k k2 : String)
    (v : BsonValue) (h : k ≠ k2) :
    memberLookup k (doc ++ [(k2, v)]) = memberLookup k doc := by
  induction doc with
  | nil => simp [memberLookup, Ne.symm h]
  | cons m rest ih => simp [memberLookup, ih]

/-- One `$set` field assignment leaves lookups of any other key
unchanged. -/
theorem memberLookup_setField_ne (doc : List (String × BsonValue)) (k k2 : String)
    (v : BsonValue) (h : k ≠ k2) :
    memberLookup k (setField doc k2 v) = memberLookup k doc := by
  unfold setField
  split
  · exact memberLookup_map_set_ne doc k k2 v h
  · exact memberLookup_append_ne doc k k2 v h

/-- Applying a `$set` document that does not mention key `k` leaves the
lookup of `k` in the stored document unchanged. -/
theorem memberLookup_applySet_not_mem (k : String) (sd doc : List (String × BsonValue))
    (h : k ∉ sd.map Prod.fst) :
    memberLookup k (applySet sd doc) = memberLookup k doc := by
  induction sd generalizing doc with
  | nil => rfl
  | cons m rest ih =>
      simp only [List.map_cons, List.mem_cons, not_or] at h
      have hstep : applySet (m :: rest) doc = applySet rest (setField doc m.1 m.2) := rfl
      rw [hstep, ih _ h.2, memberLookup_setField_ne _ _ _ _ h.1]

/-- C9: the `$set` document issued for a PUT (the BSON marshalling of the
user built from the update payload, whose ID and CreatedAt pointers are
nil) never contains the `_id` or `createdAt` members, so applying it to
any stored document leaves the document's identifier and creation stamp
untouched. -/
theorem updateSetDoc_omits_id_createdAt (p : UpdatePayload)
    (doc : List (String × BsonValue)) :
    "_id" ∉ (userService.updateSetDoc (userFromUpdatePayload p)).map Prod.fst ∧
    "createdAt" ∉ (userService.updateSetDoc (userFromUpdatePayload p)).map Prod.fst ∧
    memberLookup "_id"
        (applySet (userService.updateSetDoc (userFromUpdatePayload p)) doc) =
      memberLookup "_id" doc ∧
    memberLookup "createdAt"
        (applySet (userService.updateSetDoc (userFromUpdatePayload p)) doc) =
      memberLookup "createdAt" doc := by
  obtain ⟨nm, db, ad, ds⟩ := p
  have hid : "_id" ∉ (userService.updateSetDoc
      (userFromUpdatePayload ⟨nm, db, ad, ds⟩)).map Prod.fst := by
    cases nm <;> cases db <;> cases ad <;> cases ds <;>
      simp [userService.updateSetDoc, bsonEncodeUser, userFromUpdatePayload]
  have hca : "createdAt" ∉ (userService.updateSetDoc
      (userFromUpdatePayload ⟨nm, db, ad, ds⟩)).map Prod.fst := by
    cases nm <;> cases db <;> cases ad <;> cases ds <;>
      simp [userService.updateSetDoc, bsonEncodeUser, userFromUpdatePayload]
  exact ⟨hid, hca, memberLookup_applySet_not_mem _ _ doc hid,
    memberLookup_applySet_not_mem _ _ doc hca⟩

/-- Witness for C9: applying the `$set` document of the repository test's
update payload to a stored document leaves its `_id` member unchanged. -/
theorem updateSetDoc_omits_id_createdAt_witness :
    memberLookup "_id" (applySet (userService.updateSetDoc
        (userFromUpdatePayload sampleUpdatePayload))
        [("_id", BsonValue.oid sampleOid)]) =
      memberLookup "_id" [("_id", BsonValue.oid sampleOid)] :=
  (updateSetDoc_omits_id_createdAt sampleUpdatePayload
    [("_id", BsonValue.oid sampleOid)]).2.2.1

/-- C10: when the store's reported inserted id is not an ObjectID, the
type assertion in `create` silently fails: `create` still succeeds but
leaves the user's ID pointer nil, so the 201 body omits the `id` key
(shown here at the repository test's own payload). -/
theorem create_nonObjectID_leavesIdUnset :
    (userService.create "2024-01-01T00:00:00Z" (InsertOutcome.ok InsertedID.other)
        (userFromCreatePayload samplePayload)).result =
      Except.ok { userFromCreatePayload samplePayload with
                    CreatedAt := some "2024-01-01T00:00:00Z" } ∧
    ({ userFromCreatePayload samplePayload with
         CreatedAt := some "2024-01-01T00:00:00Z" } : User).ID = none ∧
    UserController.CreateUser "2024-01-01T00:00:00Z"
        (InsertOutcome.ok InsertedID.other) samplePayload =
      { status := 201,
        body := renderObj (encodeUser { userFromCreatePayload samplePayload with
                                          CreatedAt := some "2024-01-01T00:00:00Z" }),
        errMsg := none } ∧
    (encodeUser { userFromCreatePayload samplePayload with
                    CreatedAt := some "2024-01-01T00:00:00Z" }).map Prod.fst =
      ["name", "dob", "address", "description", "createdAt"] :=
  ⟨rfl, rfl, rfl, rfl⟩

end Ryde
